import Mathlib

/-!
Verification of the platform-identifier, compatibility-override and
configuration/path-resolution layer of fnm (src/src/arch.rs and
src/src/config.rs), shallowly embedded in Lean.
-/

namespace Fnm

/-- Processor architecture variants, from `enum Arch` in src/src/arch.rs. -/
inductive Arch where
  | X86
  | X64
  | Arm64
  | Armv7l
  | Ppc64le
  | Ppc64
  | S390x
deriving DecidableEq

/-- C-library flavor variants, from `enum LibC` in src/src/arch.rs. -/
inductive LibC where
  | Musl
  | Glibc
deriving DecidableEq

/-- Error payload of a failed `Arch` parse, from `struct ArchError` in
src/src/arch.rs: it carries only a `details` message string. -/
structure ArchError where
  details : String
deriving DecidableEq

/-- Error payload of a failed `LibC` parse, from `struct LibCError` in
src/src/arch.rs: it carries only a `details` message string. -/
structure LibCError where
  details : String
deriving DecidableEq

/-- `FromStr for Arch` in src/src/arch.rs: a Rust match on the string against
the seven canonical tokens, with a catch-all arm producing
`ArchError::new(format!("Unknown Arch: {}", unknown))`. The Rust string match
is a sequence of equality tests, rendered here as an if-chain. -/
def arch_from_str (s : String) : Except ArchError Arch :=
  if s = "x86" then .ok Arch.X86
  else if s = "x64" then .ok Arch.X64
  else if s = "arm64" then .ok Arch.Arm64
  else if s = "armv7l" then .ok Arch.Armv7l
  else if s = "ppc64le" then .ok Arch.Ppc64le
  else if s = "ppc64" then .ok Arch.Ppc64
  else if s = "s390x" then .ok Arch.S390x
  else .error (ArchError.mk ("Unknown Arch: " ++ s))

/-- `FromStr for LibC` in src/src/arch.rs: match against the two canonical
tokens, with a catch-all arm producing
`LibCError::new(format!("Unknown LibC: {}", unknown))`. -/
def libc_from_str (s : String) : Except LibCError LibC :=
  if s = "musl" then .ok LibC.Musl
  else if s = "glibc" then .ok LibC.Glibc
  else .error (LibCError.mk ("Unknown LibC: " ++ s))

/-- `Display for Arch` in src/src/arch.rs. -/
def arch_to_string (a : Arch) : String :=
  match a with
  | Arch.X86 => "x86"
  | Arch.X64 => "x64"
  | Arch.Arm64 => "arm64"
  | Arch.Armv7l => "armv7l"
  | Arch.Ppc64le => "ppc64le"
  | Arch.Ppc64 => "ppc64"
  | Arch.S390x => "s390x"

/-- `Display for LibC` in src/src/arch.rs. -/
def libc_to_string (l : LibC) : String :=
  match l with
  | LibC.Musl => "musl"
  | LibC.Glibc => "glibc"

/-- The seven canonical architecture tokens accepted by `FromStr for Arch`. -/
def validArchTokens : List String :=
  ["x86", "x64", "arm64", "armv7l", "ppc64le", "ppc64", "s390x"]

/-- The two canonical libc tokens accepted by `FromStr for LibC`. -/
def validLibCTokens : List String :=
  ["musl", "glibc"]

/-- Whether `needle` occurs as a contiguous substring of `hay`
(used to state what information an error message carries). -/
def strContains (hay needle : String) : Bool :=
  hay.toList.tails.any (fun t => needle.toList.isPrefixOf t)

lemma arch_from_str_ok_iff (s : String) :
    (∃ a, arch_from_str s = Except.ok a) ↔ s ∈ validArchTokens := by
  unfold arch_from_str
  split_ifs with h1 h2 h3 h4 h5 h6 h7 <;> simp_all [validArchTokens]

lemma libc_from_str_ok_iff (s : String) :
    (∃ l, libc_from_str s = Except.ok l) ↔ s ∈ validLibCTokens := by
  unfold libc_from_str
  split_ifs with h1 h2 <;> simp_all [validLibCTokens]

lemma arch_from_str_err (s : String) (h : s ∉ validArchTokens) :
    arch_from_str s = Except.error (ArchError.mk ("Unknown Arch: " ++ s)) := by
  simp only [validArchTokens, List.mem_cons, List.not_mem_nil, or_false] at h
  push_neg at h
  obtain ⟨h1, h2, h3, h4, h5, h6, h7⟩ := h
  unfold arch_from_str
  split_ifs <;> simp_all

lemma libc_from_str_err (s : String) (h : s ∉ validLibCTokens) :
    libc_from_str s = Except.error (LibCError.mk ("Unknown LibC: " ++ s)) := by
  simp only [validLibCTokens, List.mem_cons, List.not_mem_nil, or_false] at h
  push_neg at h
  obtain ⟨h1, h2⟩ := h
  unfold libc_from_str
  split_ifs <;> simp_all

/-- Claim C4: for every one of the 7 `Arch` variants and 2 `LibC` variants,
parsing the formatted canonical token yields back the same variant:
`parse(format(v)) = Ok(v)`. -/
theorem parse_format_roundtrip :
    (∀ a : Arch, arch_from_str (arch_to_string a) = Except.ok a) ∧
    (∀ l : LibC, libc_from_str (libc_to_string l) = Except.ok l) := by
  constructor
  · intro a; cases a <;> rfl
  · intro l; cases l <;> rfl

/-- Claim C6: parsing succeeds exactly on the canonical token set, for both
`Arch` and `LibC`; every other input, including case variants such as
`"X64"` or `"Musl"`, yields an error value (the embedded parse functions
are total, so no panic and no silent fallback is possible). -/
theorem parse_outside_tokens_errors :
    (∀ s : String, (∃ a, arch_from_str s = Except.ok a) ↔ s ∈ validArchTokens) ∧
    (∀ s : String, (∃ l, libc_from_str s = Except.ok l) ↔ s ∈ validLibCTokens) ∧
    arch_from_str "X64" = Except.error (ArchError.mk "Unknown Arch: X64") ∧
    libc_from_str "Musl" = Except.error (LibCError.mk "Unknown LibC: Musl") := by
  exact ⟨arch_from_str_ok_iff, libc_from_str_ok_iff, rfl, rfl⟩

/-- Claim C5 counterexample: the error produced for the unknown architecture
token `"foo"` (and the unknown libc token `"foo"`) has as its entire payload
the message `"Unknown Arch: foo"` (resp. `"Unknown LibC: foo"`), which carries
the offending token but contains none of the accepted valid tokens — so the
error does not carry the accepted set, contrary to the claim. -/
theorem parse_error_lacks_valid_set :
    arch_from_str "foo" = Except.error (ArchError.mk "Unknown Arch: foo") ∧
    validArchTokens.all (fun t => !(strContains "Unknown Arch: foo" t)) = true ∧
    libc_from_str "foo" = Except.error (LibCError.mk "Unknown LibC: foo") ∧
    validLibCTokens.all (fun t => !(strContains "Unknown LibC: foo" t)) = true := by
  refine ⟨rfl, by decide, rfl, by decide⟩

/-- Claim C5 (amended): a parse error for an unknown architecture or libc
token carries the offending input token in its message — the payload is
exactly `"Unknown Arch: " ++ token` resp. `"Unknown LibC: " ++ token` — but
not the set of accepted valid tokens. -/
theorem parse_error_carries_token (s : String) :
    (s ∉ validArchTokens →
      arch_from_str s = Except.error (ArchError.mk ("Unknown Arch: " ++ s))) ∧
    (s ∉ validLibCTokens →
      libc_from_str s = Except.error (LibCError.mk ("Unknown LibC: " ++ s))) :=
  ⟨arch_from_str_err s, libc_from_str_err s⟩

/-- Witness for `parse_error_carries_token` at the concrete token `"foo"`. -/
theorem parse_error_carries_token_witness :
    arch_from_str "foo" = Except.error (ArchError.mk ("Unknown Arch: " ++ "foo")) ∧
    libc_from_str "foo" = Except.error (LibCError.mk ("Unknown LibC: " ++ "foo")) :=
  ⟨(parse_error_carries_token "foo").1 (by decide),
   (parse_error_carries_token "foo").2 (by decide)⟩

/-- The resolved version consumed by the override resolver. Modelled from the
spec: `crate::version::Version` is not under src/; the spec describes it as
either a structured semantic version (major/minor/patch) or a named,
unstructured channel reference. -/
inductive Version where
  | Semver (major minor patch : Nat)
  | Named (name : String)
deriving DecidableEq

/-- `get_safe_arch` for Unix targets in src/src/arch.rs: a match over
`(platform_name(), platform_arch(), version)` mapping
`("darwin", "arm64", Semver v)` with guard `v.major < 16` to `Arch::X64`, and
everything else to the requested architecture. The compile-time host probes
`platform_name` / `platform_arch` (src/src/system_info.rs, not under src/)
are passed as explicit arguments. -/
def get_safe_arch_unix (platform_name platform_arch : String)
    (arch : Arch) (version : Version) : Arch :=
  match platform_name, platform_arch, version with
  | "darwin", "arm64", Version.Semver major _ _ =>
      if major < 16 then Arch.X64 else arch
  | _, _, _ => arch

/-- `get_safe_arch` for Windows targets in src/src/arch.rs: always returns
the requested architecture. -/
def get_safe_arch_windows (arch : Arch) (_version : Version) : Arch :=
  arch

/-- The condition under which the Apple-Silicon quirk correction fires:
host OS `"darwin"`, host processor `"arm64"`, and a structured semantic
version with major component below 16. -/
def quirkApplies (platform_name platform_arch : String) (version : Version) : Bool :=
  decide (platform_name = "darwin") && decide (platform_arch = "arm64") &&
    (match version with
     | Version.Semver major _ _ => decide (major < 16)
     | Version.Named _ => false)

/-- Claim C2 counterexample: on a non-darwin host with requested architecture
`x64` and version 14.0.0, the quirk condition does not hold, yet
`get_safe_arch` returns `x64` — so "returns x64 exactly when the Apple-Silicon
condition holds" is false as an iff. -/
theorem get_safe_arch_not_iff_x64 :
    ¬(get_safe_arch_unix "linux" "x64" Arch.X64 (Version.Semver 14 0 0) = Arch.X64 ↔
      quirkApplies "linux" "x64" (Version.Semver 14 0 0) = true) := by
  decide

/-- Claim C2 (amended): `get_safe_arch` returns `x64` whenever the host OS is
`"darwin"`, the host processor is `"arm64"`, and the version is a structured
semantic version with major below 16, regardless of the requested
architecture; in every other case it returns the requested architecture
unchanged — which is `x64` exactly when `x64` was requested. The Windows
variant always returns the requested architecture. -/
theorem get_safe_arch_spec :
    (∀ pn pa a v, get_safe_arch_unix pn pa a v =
      if quirkApplies pn pa v then Arch.X64 else a) ∧
    (∀ a v, get_safe_arch_windows a v = a) := by
  constructor
  · intro pn pa a v
    unfold get_safe_arch_unix quirkApplies
    split
    · rename_i major minor patch
      simp
    · rename_i h
      cases v with
      | Semver major minor patch =>
          by_cases hn : pn = "darwin"
          · by_cases ha : pa = "arm64"
            · subst hn; subst ha
              exact (h major minor patch rfl rfl rfl).elim
            · simp [hn, ha]
          · simp [hn]
      | Named n => simp
  · intro a v
    rfl

/-- Host distribution identification. Modelled from the external `os_type`
crate consumed by `Default for LibC` in src/src/arch.rs: a closed enumeration
of recognized platforms, of which `Alpine` is the one the code singles out. -/
inductive OSType where
  | Unknown
  | Alpine
  | Arch
  | CentOS
  | Debian
  | Deepin
  | Fedora
  | Kali
  | Manjaro
  | NixOS
  | OpenSUSE
  | OSX
  | Redhat
  | Ubuntu
deriving DecidableEq

/-- `Default for LibC` in src/src/arch.rs: match on
`os_type::current_platform().os_type`, mapping `Alpine` to `Musl` and every
other platform to `Glibc`. The probed platform is passed as an argument. -/
def libc_default (os : OSType) : LibC :=
  match os with
  | OSType.Alpine => LibC.Musl
  | _ => LibC.Glibc

/-- `Default for Arch` in src/src/arch.rs: parse the host token reported by
`crate::system_info::platform_arch()`; on parse failure the code panics,
terminating startup — modelled as `none`. -/
def arch_default (host_token : String) : Option Arch :=
  match arch_from_str host_token with
  | Except.ok arch => some arch
  | Except.error _ => none

/-- Claim C7: `default_libc()` returns `Musl` if and only if host
distribution identification reports Alpine, and `Glibc` in every other
case. -/
theorem libc_default_musl_iff_alpine :
    ∀ os : OSType, libc_default os = LibC.Musl ↔ os = OSType.Alpine := by
  intro os
  cases os <;> decide

/-- Claim C8: if the host reports an architecture token inside the closed
set, `default_architecture()` returns the corresponding variant; if the
token is outside the set it terminates startup (modelled as `none`) rather
than returning any architecture variant. -/
theorem arch_default_fatal_or_exact (t : String) :
    (t ∉ validArchTokens → arch_default t = none) ∧
    (∀ a, arch_from_str t = Except.ok a → arch_default t = some a) := by
  constructor
  · intro h
    have herr := arch_from_str_err t h
    unfold arch_default
    rw [herr]
  · intro a h
    unfold arch_default
    rw [h]

/-- Witness for `arch_default_fatal_or_exact`: the unrecognized host token
`"mips"` is fatal, and the recognized token `"x64"` yields `Arch.X64`. -/
theorem arch_default_fatal_or_exact_witness :
    arch_default "mips" = none ∧ arch_default "x64" = some Arch.X64 :=
  ⟨(arch_default_fatal_or_exact "mips").1 (by decide),
   (arch_default_fatal_or_exact "x64").2 Arch.X64 rfl⟩

/-- `default_node_dist_mirror` in src/src/config.rs: matches on
`LibC::default()` — raw host detection, not the layered configuration — and
returns one of two fixed URL literals. -/
def default_node_dist_mirror (os : OSType) : String :=
  match libc_default os with
  | LibC.Glibc => "https://nodejs.org/dist/"
  | LibC.Musl => "https://unofficial-builds.nodejs.org/download/release/"

/-- The structopt layering of the `node_dist_mirror` field of `FnmConfig` in
src/src/config.rs: an explicit flag or environment value wins; otherwise the
field takes `DEFAULT_NODE_DIST_MIRROR`, the lazily computed
`default_node_dist_mirror()` value. -/
def mirror_value (override_val : Option String) (os : OSType) : String :=
  override_val.getD (default_node_dist_mirror os)

/-- The structopt layering of the `libc` field of `FnmConfig` in
src/src/config.rs: an explicit flag or environment value wins; otherwise the
field takes `LibC::default()`. -/
def libc_value (override_val : Option LibC) (os : OSType) : LibC :=
  override_val.getD (libc_default os)

/-- Claim C1 counterexample: on a non-Alpine host (Ubuntu) with the libc
override set to `Musl` and no mirror override, the resolved libc is `Musl`
but the default mirror is the official dist URL, not the unofficial-builds
URL — the mirror default tracks host detection, not the resolved libc. -/
theorem mirror_default_ignores_libc_override :
    ¬(mirror_value none OSType.Ubuntu =
        "https://unofficial-builds.nodejs.org/download/release/" ↔
      libc_value (some LibC.Musl) OSType.Ubuntu = LibC.Musl) := by
  decide

/-- Claim C1 (amended): the default node-dist mirror is a function of the
host-detected libc (`LibC::default()`), not of the resolved libc after
override layering: it is the unofficial-builds URL when host detection
reports musl (Alpine) and the official dist URL otherwise, and overriding
libc alone does not change it; an explicit mirror override is taken
verbatim. -/
theorem mirror_default_from_host_detection :
    (∀ os : OSType, mirror_value none os =
      if libc_default os = LibC.Musl
      then "https://unofficial-builds.nodejs.org/download/release/"
      else "https://nodejs.org/dist/") ∧
    (∀ (os : OSType) (m : String), mirror_value (some m) os = m) := by
  constructor
  · intro os
    cases os <;> rfl
  · intro os m
    rfl

/-- A parsed absolute URL. Modelled from the spec: URL parsing/validation is
an external collaborator (`reqwest::Url`); a URL here is a scheme, a
nonempty host, and a path. -/
structure Url where
  scheme : String
  host : String
  path : String
deriving DecidableEq

/-- Modelled from the spec: `reqwest::Url::parse` is an external
collaborator, not under src/. A string parses when it starts with a known
scheme marker and has a nonempty host before the first slash of the
remainder. -/
def url_parse (s : String) : Option Url :=
  let cs := s.toList
  if "https://".toList.isPrefixOf cs then
    let rest := cs.drop 8
    let host := rest.takeWhile (fun c => c ≠ '/')
    if host.isEmpty then none
    else some (Url.mk "https" host.asString (rest.dropWhile (fun c => c ≠ '/')).asString)
  else if "http://".toList.isPrefixOf cs then
    let rest := cs.drop 7
    let host := rest.takeWhile (fun c => c ≠ '/')
    if host.isEmpty then none
    else some (Url.mk "http" host.asString (rest.dropWhile (fun c => c ≠ '/')).asString)
  else none

/-- Claim C9: `default_node_dist_mirror` always returns one of exactly two
fixed string literals, and both parse successfully as URLs, so the unwrap in
`Default for FnmConfig` never reaches its error branch. -/
theorem default_mirror_always_parses :
    ∀ os : OSType,
      (default_node_dist_mirror os = "https://nodejs.org/dist/" ∨
       default_node_dist_mirror os =
         "https://unofficial-builds.nodejs.org/download/release/") ∧
      (url_parse (default_node_dist_mirror os)).isSome = true := by
  intro os
  cases os <;> exact ⟨by first | exact Or.inl rfl | exact Or.inr rfl, by decide⟩

/-- A filesystem path, as a list of components from the root. -/
abbrev FsPath := List String

/-- A filesystem state: which paths currently exist as directories. -/
abbrev FS := FsPath → Bool

/-- All nonempty prefixes of a path, the path itself included: the
directories that `create_dir_all` guarantees to exist. -/
def ancestors (p : FsPath) : List FsPath :=
  (List.range p.length).map (fun n => p.take (n + 1))

/-- Modelled from the spec: recursive directory creation (the effect behind
`ensure_exists_silently` in src/path_ext.rs, which is not under src/) makes
the path and any missing parent exist, and is idempotent — never an error if
the directories are already present. -/
def create_dir_all (fs : FS) (p : FsPath) : FS :=
  fun q => fs q || decide (q ∈ ancestors p)

/-- Modelled from the spec: `PathExt::ensure_exists_silently` (src/path_ext.rs,
not under src/) ensures the directory exists, creating it and any missing
parent if absent, and returns the path unchanged. -/
def ensure_exists_silently (fs : FS) (p : FsPath) : FsPath × FS :=
  (p, create_dir_all fs p)

/-- The configuration record, from `struct FnmConfig` in src/src/config.rs.
The mirror URL is kept as its string form and the log level as its token. -/
structure FnmConfig where
  node_dist_mirror : String
  base_dir : Option FsPath
  multishell_path : Option FsPath
  log_level : String
  arch : Arch
  libc : LibC

/-- The host-environment probes consumed by the path accessors:
`dirs::home_dir()` and `std::env::temp_dir()`, external collaborators. -/
structure HostEnv where
  home : FsPath
  temp_dir : FsPath

/-- `FnmConfig::base_dir_with_default` in src/src/config.rs: the explicit
`base_dir` override, else `<home>/.fnm`, ensured to exist. -/
def base_dir_with_default (cfg : FnmConfig) (env : HostEnv) (fs : FS) : FsPath × FS :=
  ensure_exists_silently fs (cfg.base_dir.getD (env.home ++ [".fnm"]))

/-- `FnmConfig::installations_dir` in src/src/config.rs. -/
def installations_dir (cfg : FnmConfig) (env : HostEnv) (fs : FS) : FsPath × FS :=
  let r := base_dir_with_default cfg env fs
  ensure_exists_silently r.2 (r.1 ++ ["node-versions"])

/-- `FnmConfig::aliases_dir` in src/src/config.rs. -/
def aliases_dir (cfg : FnmConfig) (env : HostEnv) (fs : FS) : FsPath × FS :=
  let r := base_dir_with_default cfg env fs
  ensure_exists_silently r.2 (r.1 ++ ["aliases"])

/-- `FnmConfig::default_version_dir` in src/src/config.rs: joins the aliases
root with `"default"` without ensuring that joined path exists. -/
def default_version_dir (cfg : FnmConfig) (env : HostEnv) (fs : FS) : FsPath × FS :=
  let r := aliases_dir cfg env fs
  (r.1 ++ ["default"], r.2)

/-- `FnmConfig::multishell_base_dir` in src/src/config.rs. -/
def multishell_base_dir (env : HostEnv) (fs : FS) : FsPath × FS :=
  ensure_exists_silently fs (env.temp_dir ++ ["fnm_multishell"])

/-- The resolved install root path (before materialization). -/
def basePathOf (cfg : FnmConfig) (env : HostEnv) : FsPath :=
  cfg.base_dir.getD (env.home ++ [".fnm"])

/-- The resolved aliases root path (before materialization). -/
def aliasesPathOf (cfg : FnmConfig) (env : HostEnv) : FsPath :=
  basePathOf cfg env ++ ["aliases"]

lemma self_mem_ancestors (p : FsPath) (h : p ≠ []) : p ∈ ancestors p := by
  have hl : 0 < p.length := List.length_pos.mpr h
  refine List.mem_map.mpr ⟨p.length - 1, List.mem_range.mpr (Nat.sub_lt hl Nat.one_pos), ?_⟩
  rw [Nat.sub_add_cancel hl, List.take_length]

lemma append_singleton_mem_ancestors (p : FsPath) (x : String) :
    (p ++ [x]) ∈ ancestors (p ++ [x]) :=
  self_mem_ancestors (p ++ [x]) (by simp)

lemma mem_ancestors_length_le (q p : FsPath) (h : q ∈ ancestors p) :
    q.length ≤ p.length := by
  obtain ⟨n, _, rfl⟩ := List.mem_map.mp h
  rw [List.length_take]
  exact min_le_right _ _

lemma not_mem_ancestors_of_longer (q p : FsPath) (h : p.length < q.length) :
    q ∉ ancestors p :=
  fun hq => absurd (mem_ancestors_length_le q p hq) (Nat.not_le_of_lt h)

lemma bool_or_twice (a b c : Bool) : (((a || b || c) || b) || c) = (a || b || c) := by
  cases a <;> cases b <;> cases c <;> rfl

/-- A filesystem in which no directory exists yet. -/
def emptyFS : FS := fun _ => false

/-- A concrete configuration with no base-directory override. -/
def cfg0 : FnmConfig :=
  FnmConfig.mk "https://nodejs.org/dist/" none none "info" Arch.X64 LibC.Glibc

/-- A concrete host environment. -/
def env0 : HostEnv := HostEnv.mk ["home", "user"] ["tmp"]

/-- Claim C3 counterexample: starting from a filesystem with no directories,
`default_version_dir` returns the path `<home>/.fnm/aliases/default`, yet
after the call that returned path still does not exist as a directory — the
accessor for the default-alias directory does not create it. -/
theorem default_alias_dir_not_created :
    (default_version_dir cfg0 env0 emptyFS).1 =
      ["home", "user", ".fnm", "aliases", "default"] ∧
    (default_version_dir cfg0 env0 emptyFS).2
      ["home", "user", ".fnm", "aliases", "default"] = false := by
  constructor
  · rfl
  · decide

/-- Claim C3 (amended): the installations-root, aliases-root and
multishell-base accessors each guarantee that the returned path exists as a
directory after the call, whatever the prior filesystem state, and calling
any accessor again returns the same path; the default-alias accessor,
however, only guarantees that the aliases root exists — it returns the
aliases root joined with `"default"` without creating that joined path. -/
theorem dir_accessors_ensure_exist (cfg : FnmConfig) (env : HostEnv) (fs : FS) :
    ((installations_dir cfg env fs).2 ((installations_dir cfg env fs).1) = true) ∧
    ((aliases_dir cfg env fs).2 ((aliases_dir cfg env fs).1) = true) ∧
    ((multishell_base_dir env fs).2 ((multishell_base_dir env fs).1) = true) ∧
    ((default_version_dir cfg env fs).2 (aliasesPathOf cfg env) = true) ∧
    ((installations_dir cfg env ((installations_dir cfg env fs).2)).1 =
      (installations_dir cfg env fs).1) ∧
    ((aliases_dir cfg env ((aliases_dir cfg env fs).2)).1 =
      (aliases_dir cfg env fs).1) ∧
    ((multishell_base_dir env ((multishell_base_dir env fs).2)).1 =
      (multishell_base_dir env fs).1) ∧
    ((default_version_dir cfg env ((default_version_dir cfg env fs).2)).1 =
      (default_version_dir cfg env fs).1) := by
  refine ⟨?_, ?_, ?_, ?_, rfl, rfl, rfl, rfl⟩
  · simp only [installations_dir, base_dir_with_default, ensure_exists_silently,
      create_dir_all, Bool.or_eq_true, decide_eq_true_eq]
    exact Or.inr (append_singleton_mem_ancestors _ _)
  · simp only [aliases_dir, base_dir_with_default, ensure_exists_silently,
      create_dir_all, Bool.or_eq_true, decide_eq_true_eq]
    exact Or.inr (append_singleton_mem_ancestors _ _)
  · simp only [multishell_base_dir, ensure_exists_silently, create_dir_all,
      Bool.or_eq_true, decide_eq_true_eq]
    exact Or.inr (append_singleton_mem_ancestors _ _)
  · simp only [default_version_dir, aliases_dir, base_dir_with_default,
      ensure_exists_silently, create_dir_all, aliasesPathOf, basePathOf,
      Bool.or_eq_true, decide_eq_true_eq]
    exact Or.inr (append_singleton_mem_ancestors _ _)

/-- Claim C10: `default_version_dir` returns exactly the aliases root joined
with `"default"`; its only filesystem effect is the idempotent creation of
the install root and the aliases root together with their missing parents
(a path exists afterwards iff it existed before or is an ancestor of one of
those two roots); the returned default path itself is left exactly as it
was; and a second call changes nothing further. -/
theorem default_version_dir_frame (cfg : FnmConfig) (env : HostEnv) (fs : FS) :
    ((default_version_dir cfg env fs).1 = aliasesPathOf cfg env ++ ["default"]) ∧
    (∀ q, ((default_version_dir cfg env fs).2 q = true ↔
      (fs q = true ∨ q ∈ ancestors (basePathOf cfg env) ∨
        q ∈ ancestors (aliasesPathOf cfg env)))) ∧
    ((default_version_dir cfg env fs).2 (aliasesPathOf cfg env ++ ["default"]) =
      fs (aliasesPathOf cfg env ++ ["default"])) ∧
    (∀ q, ((default_version_dir cfg env ((default_version_dir cfg env fs).2)).2 q =
      (default_version_dir cfg env fs).2 q)) := by
  refine ⟨rfl, ?_, ?_, ?_⟩
  · intro q
    simp only [default_version_dir, aliases_dir, base_dir_with_default,
      ensure_exists_silently, create_dir_all, aliasesPathOf, basePathOf,
      Bool.or_eq_true, decide_eq_true_eq, or_assoc]
  · have h1 : (aliasesPathOf cfg env ++ ["default"]) ∉ ancestors (basePathOf cfg env) := by
      refine not_mem_ancestors_of_longer _ _ ?_
      simp only [aliasesPathOf, List.length_append, List.length_cons, List.length_nil]
      omega
    have h2 : (aliasesPathOf cfg env ++ ["default"]) ∉ ancestors (aliasesPathOf cfg env) := by
      refine not_mem_ancestors_of_longer _ _ ?_
      simp only [List.length_append, List.length_cons, List.length_nil]
      omega
    simp only [aliasesPathOf, basePathOf] at h1 h2
    simp only [default_version_dir, aliases_dir, base_dir_with_default,
      ensure_exists_silently, create_dir_all, aliasesPathOf, basePathOf]
    rw [decide_eq_false h1, decide_eq_false h2]
    simp
  · intro q
    simp only [default_version_dir, aliases_dir, base_dir_with_default,
      ensure_exists_silently, create_dir_all]
    exact bool_or_twice (fs q) _ _

end Fnm
